import Mathlib

/-
Verification of the test-parametrization and assertion-evaluation engine of
dev-tools-shoshlab.  The concrete Python helpers (validate_type, x_plus_y,
x_plus_y_errorhandling) and the declared test cases are embedded from
src/dev_tools_examples.py; the Case Expander and Runner are modelled from the
specification, since the repository uses pytest for them.
-/

namespace DevTools

/-- Python runtime types occurring in the notebook examples. -/
inductive PyType
  | int
  | float
  | str
  | bool
deriving DecidableEq

/-- Python values occurring in the notebook examples; floats are modelled as rationals. -/
inductive Val
  | vint (n : Int)
  | vfloat (q : Rat)
  | vstr (s : String)
  | vbool (b : Bool)
deriving DecidableEq

/-- The exact runtime type of a value, as the Python builtin type() reports it: the
type of True is bool, not int, even though bool is a subclass of int. -/
def type_of : Val → PyType
  | .vint _ => .int
  | .vfloat _ => .float
  | .vstr _ => .str
  | .vbool _ => .bool

/-- Embeds validate_type from src/dev_tools_examples.py line 36: type(_input) in (int, float). -/
def validate_type (v : Val) : Bool :=
  type_of v == PyType.int || type_of v == PyType.float

/-- Kinds of Python exceptions arising in the examples. -/
inductive ExnKind
  | typeError
  | assertionError
deriving DecidableEq

/-- A raised Python exception: its kind together with its message. -/
inductive PyExn
  | typeError (msg : String)
  | assertionError (msg : String)
deriving DecidableEq

/-- The kind of an exception. -/
def PyExn.kind : PyExn → ExnKind
  | .typeError _ => .typeError
  | .assertionError _ => .assertionError

/-- Booleans coerce to 0 or 1 in Python arithmetic. -/
def boolToInt (b : Bool) : Int := if b then 1 else 0

/-- Python + on the value kinds the notebook uses: numeric addition (a bool operand
counts as 0 or 1, an int mixed with a float gives a float), string concatenation,
and a TypeError when a string is mixed with a number. -/
def pyAdd : Val → Val → Except PyExn Val
  | .vint a, .vint b => .ok (.vint (a + b))
  | .vint a, .vbool b => .ok (.vint (a + boolToInt b))
  | .vint a, .vfloat q => .ok (.vfloat ((a : Rat) + q))
  | .vbool a, .vint b => .ok (.vint (boolToInt a + b))
  | .vbool a, .vbool b => .ok (.vint (boolToInt a + boolToInt b))
  | .vbool a, .vfloat q => .ok (.vfloat ((boolToInt a : Rat) + q))
  | .vfloat p, .vint b => .ok (.vfloat (p + (b : Rat)))
  | .vfloat p, .vbool b => .ok (.vfloat (p + (boolToInt b : Rat)))
  | .vfloat p, .vfloat q => .ok (.vfloat (p + q))
  | .vstr s, .vstr t => .ok (.vstr (s ++ t))
  | _, _ => .error (.typeError "unsupported operand type(s) for +")

/-- Embeds x_plus_y from src/dev_tools_examples.py line 43: return x + y. -/
def x_plus_y (x y : Val) : Except PyExn Val := pyAdd x y

/-- Embeds x_plus_y_errorhandling from src/dev_tools_examples.py lines 48 to 52:
add when both inputs validate, otherwise raise TypeError. -/
def x_plus_y_errorhandling (x y : Val) : Except PyExn Val :=
  if validate_type x && validate_type y then pyAdd x y
  else .error (.typeError "Input types are not appropriate for addition.")

/-- Numeric view of a value for Python equality: ints, floats and bools compare by
numeric value; strings have no numeric view. -/
def toNum : Val → Option Rat
  | .vint n => some (n : Rat)
  | .vfloat q => some q
  | .vbool b => some ((boolToInt b : Int) : Rat)
  | .vstr _ => none

/-- Python == on the value kinds used: numbers compare by value across int, float
and bool; strings compare by content; a number and a string are unequal. -/
def pyEq (a b : Val) : Bool :=
  match toNum a, toNum b with
  | some p, some q => p == q
  | none, none =>
    match a, b with
    | .vstr s, .vstr t => s == t
    | _, _ => false
  | _, _ => false

/-- Rendering of a value inside an assertion-failure description. -/
def reprVal : Val → String
  | .vint n => toString n
  | .vfloat q => toString q
  | .vstr s => s
  | .vbool b => if b then "True" else "False"

/-- A binding of parameter names to concrete values, in binding order. -/
abbrev Binding := List (String × Val)

/-- Looking up an argument by name; a missing required argument is a TypeError in Python. -/
def argVal (args : Binding) (n : String) : Except PyExn Val :=
  match args.lookup n with
  | some v => .ok v
  | none => .error (.typeError ("missing a required argument: " ++ n))

/-- Modelled from the spec: an assert of a boolean equality check records, on
failure, a reason capturing the failed description of the condition, for example 4 != 5. -/
def assertEqVal (a b : Val) : Except PyExn Unit :=
  if pyEq a b then .ok ()
  else .error (.assertionError (reprVal a ++ " != " ++ reprVal b))

/-- Modelled from the spec: a ParameterAxis is either an independent axis (one
parameter name with candidate values) or a joint axis (a tuple of parameter names
with one value row per declared row). -/
inductive Axis
  | independent (name : String) (values : List Val)
  | joint (names : List String) (rows : List (List Val))
deriving DecidableEq

/-- Whether an axis is independent. -/
def Axis.isIndependent : Axis → Bool
  | .independent _ _ => true
  | .joint _ _ => false

/-- The number of alternatives an axis declares: candidate values for an
independent axis, rows for a joint axis. -/
def Axis.size : Axis → Nat
  | .independent _ vs => vs.length
  | .joint _ rows => rows.length

/-- The parameter names an axis declares, in declaration order. -/
def Axis.names : Axis → List String
  | .independent n _ => [n]
  | .joint ns _ => ns

/-- A test body, optionally wrapped in an expect-exception scope. -/
inductive CaseBody
  | plain (run : Binding → Except PyExn Unit)
  | expecting (k : ExnKind) (run : Binding → Except PyExn Unit)

/-- Modelled from the spec: a TestCase is an identifier, a callable body, an
ordered list of declared parameter axes, and the default argument values of the
underlying function. -/
structure TestCase where
  name : String
  body : CaseBody
  axes : List Axis
  defaults : Binding

/-- Modelled from the spec: an ExpandedCase is the TestCase identifier together
with one concrete binding of parameter names to values. -/
structure ExpandedCase where
  testName : String
  binding : Binding
deriving DecidableEq

/-- Modelled from the spec: one step of the Case Expander. An independent axis
takes the cartesian product of the current bindings with each candidate value; a
joint axis takes the cartesian product of the current bindings with each declared
row, binding all named parameters of the row atomically. Values and rows are
combined in declaration order. -/
def expandStep (bs : List Binding) : Axis → List Binding
  | .independent n vs => bs.flatMap (fun b => vs.map (fun v => b ++ [(n, v)]))
  | .joint ns rows => bs.flatMap (fun b => rows.map (fun row => b ++ ns.zip row))

/-- Modelled from the spec: the Case Expander. Start with a single empty binding
and fold the declared axes over it in declaration order; a test with zero axes
expands to exactly one ExpandedCase with no bindings beyond the defaults. -/
def expand (t : TestCase) : List ExpandedCase :=
  (t.axes.foldl expandStep [[]]).map (fun b => { testName := t.name, binding := b })

/-- The possible recorded results of running one expanded case. -/
inductive Outcome
  | passed
  | failed (reason : String)
  | expectedExceptionRaised
  | expectedExceptionNotRaised
deriving DecidableEq

/-- Modelled from the spec: the Runner. A plain body that completes gives Passed
and one that raises gives Failed with the reason; a body wrapped in an
expect-exception scope gives ExpectedExceptionRaised when it raises a matching
exception, and ExpectedExceptionNotRaised when it completes without raising or
raises a non-matching exception, in which case the original exception is
re-raised to the caller (the second component) after being recorded. -/
def runCase (cb : CaseBody) (args : Binding) : Outcome × Option PyExn :=
  match cb with
  | .plain f =>
    match f args with
    | .ok _ => (.passed, none)
    | .error (.assertionError m) => (.failed m, none)
    | .error (.typeError m) => (.failed m, none)
  | .expecting k f =>
    match f args with
    | .ok _ => (.expectedExceptionNotRaised, none)
    | .error e =>
      if e.kind == k then (.expectedExceptionRaised, none)
      else (.expectedExceptionNotRaised, some e)

/-- Modelled from the spec: running an expanded case invokes the body with the
bound arguments, the defaults filling in parameters the binding leaves unbound. -/
def runExpanded (t : TestCase) (ec : ExpandedCase) : Outcome × Option PyExn :=
  runCase t.body (ec.binding ++ t.defaults)

/-- Embeds test_x_plus_y_basic from src/dev_tools_examples.py lines 60 to 61:
defaults x=2 and y=2, no axes, assert x_plus_y(x, y) == 4. -/
def test_x_plus_y_basic : TestCase where
  name := "test_x_plus_y_basic"
  body := .plain (fun args => do
    let x ← argVal args "x"
    let y ← argVal args "y"
    let r ← x_plus_y x y
    assertEqVal r (.vint 4))
  axes := []
  defaults := [("x", .vint 2), ("y", .vint 2)]

/-- Embeds test_x_plus_y_expect_to_fail from src/dev_tools_examples.py lines 64
to 65: defaults x=2 and y=2, no axes, assert x_plus_y(x, y) == 5. -/
def test_x_plus_y_expect_to_fail : TestCase where
  name := "test_x_plus_y_expect_to_fail"
  body := .plain (fun args => do
    let x ← argVal args "x"
    let y ← argVal args "y"
    let r ← x_plus_y x y
    assertEqVal r (.vint 5))
  axes := []
  defaults := [("x", .vint 2), ("y", .vint 2)]

/-- Embeds test_x_plus_y_less_basic from src/dev_tools_examples.py lines 69 to
71: one joint axis over x, y, expected_result with rows (2, 2, 4) and (2, 3, 5),
assert x_plus_y(x, y) == expected_result. -/
def test_x_plus_y_less_basic : TestCase where
  name := "test_x_plus_y_less_basic"
  body := .plain (fun args => do
    let x ← argVal args "x"
    let y ← argVal args "y"
    let e ← argVal args "expected_result"
    let r ← x_plus_y x y
    assertEqVal r e)
  axes := [.joint ["x", "y", "expected_result"]
    [[.vint 2, .vint 2, .vint 4], [.vint 2, .vint 3, .vint 5]]]
  defaults := []

/-- Embeds test_x_plus_y_cartesian_product from src/dev_tools_examples.py lines
75 to 79: independent axis x over 2, 3, 4 and independent axis y over 3, 4, 5,
assert x_plus_y(x, y) == (x + y). -/
def test_x_plus_y_cartesian_product : TestCase where
  name := "test_x_plus_y_cartesian_product"
  body := .plain (fun args => do
    let x ← argVal args "x"
    let y ← argVal args "y"
    let r ← x_plus_y x y
    let s ← pyAdd x y
    assertEqVal r s)
  axes := [.independent "x" [.vint 2, .vint 3, .vint 4],
    .independent "y" [.vint 3, .vint 4, .vint 5]]
  defaults := []

/-- Embeds test_x_plus_y_even_less_basic from src/dev_tools_examples.py lines 83
to 86: one joint axis over x, y with the single row (2, "2"); the body calls
x_plus_y_errorhandling inside an expect-TypeError scope. -/
def test_x_plus_y_even_less_basic : TestCase where
  name := "test_x_plus_y_even_less_basic"
  body := .expecting .typeError (fun args => do
    let x ← argVal args "x"
    let y ← argVal args "y"
    let _ ← x_plus_y_errorhandling x y
    pure ())
  axes := [.joint ["x", "y"] [[.vint 2, .vstr "2"]]]
  defaults := []

/-- Whether every row of a joint axis has exactly as many values as the axis has names. -/
def axisRowsOk : Axis → Bool
  | .independent _ _ => true
  | .joint ns rows => rows.all (fun r => r.length == ns.length)

/-- The union of parameter names declared across the axes of a test, in declaration order. -/
def declaredNames (t : TestCase) : List String := t.axes.flatMap Axis.names

/-- Whether a result is a raised TypeError. -/
def isTypeError : Except PyExn Val → Bool
  | .error (.typeError _) => true
  | _ => false

/-- Length of one expansion step: each existing binding is paired with every
value or row of the axis. -/
lemma length_expandStep (bs : List Binding) (a : Axis) :
    (expandStep bs a).length = bs.length * a.size := by
  cases a <;>
    simp [expandStep, Axis.size, Function.comp_def, List.map_const, List.sum_replicate,
      smul_eq_mul]

/-- Length of folding the expansion step over a list of axes. -/
lemma length_foldl_expandStep (axes : List Axis) :
    ∀ bs : List Binding,
      (axes.foldl expandStep bs).length = bs.length * (axes.map Axis.size).prod := by
  induction axes with
  | nil => intro bs; simp
  | cons a axes ih =>
    intro bs
    simp only [List.foldl_cons, List.map_cons, List.prod_cons]
    rw [ih, length_expandStep, Nat.mul_assoc]

/-- The number of expanded cases of any test is the product of its axis sizes. -/
lemma length_expand (t : TestCase) :
    (expand t).length = (t.axes.map Axis.size).prod := by
  simp [expand, length_foldl_expandStep]

/-- One expansion step extends the bound names of every binding by exactly the
names of the axis, provided every joint row matches the arity of its axis. -/
lemma map_fst_expandStep (bs : List Binding) (a : Axis) (acc : List String)
    (hrows : axisRowsOk a = true) (hbs : ∀ b ∈ bs, b.map Prod.fst = acc) :
    ∀ b ∈ expandStep bs a, b.map Prod.fst = acc ++ a.names := by
  cases a with
  | independent n vs =>
    intro b hb
    simp only [expandStep, List.mem_flatMap, List.mem_map] at hb
    obtain ⟨b0, hb0, v, _, rfl⟩ := hb
    simp [hbs b0 hb0, Axis.names]
  | joint ns rows =>
    intro b hb
    simp only [expandStep, List.mem_flatMap, List.mem_map] at hb
    obtain ⟨b0, hb0, row, hrow, rfl⟩ := hb
    have hlen : row.length = ns.length := by
      simp only [axisRowsOk, List.all_eq_true, beq_iff_eq] at hrows
      exact hrows row hrow
    simp [hbs b0 hb0, Axis.names, List.map_fst_zip ns row (le_of_eq hlen.symm)]

/-- Folding the expansion step appends exactly the names declared by the axes,
in declaration order, to the bound names of every binding. -/
lemma map_fst_foldl_expandStep (axes : List Axis) :
    ∀ (bs : List Binding) (acc : List String),
      (∀ a ∈ axes, axisRowsOk a = true) →
      (∀ b ∈ bs, b.map Prod.fst = acc) →
      ∀ b ∈ axes.foldl expandStep bs,
        b.map Prod.fst = acc ++ axes.flatMap Axis.names := by
  induction axes with
  | nil => intro bs acc _ hbs b hb; simpa using hbs b hb
  | cons a axes ih =>
    intro bs acc hrows hbs b hb
    simp only [List.foldl_cons] at hb
    have h1 : ∀ b ∈ expandStep bs a, b.map Prod.fst = acc ++ a.names :=
      map_fst_expandStep bs a acc (hrows a (by simp)) hbs
    have h2 := ih (expandStep bs a) (acc ++ a.names)
      (fun x hx => hrows x (by simp [hx])) h1 b hb
    simpa [List.append_assoc] using h2

/-- Claim C1: a TestCase all of whose axes are independent expands to exactly the
product of the axis sizes many ExpandedCase entries; concretely,
test_x_plus_y_cartesian_product with independent axis x over 2, 3, 4 and
independent axis y over 3, 4, 5 expands to exactly 9 cases, and running each
yields Passed, since the assertion compares x_plus_y(x, y) with x + y. -/
theorem c1_cartesian_product_count :
    (∀ t : TestCase, (∀ a ∈ t.axes, a.isIndependent = true) →
      (expand t).length = (t.axes.map Axis.size).prod) ∧
    (expand test_x_plus_y_cartesian_product).length = 9 ∧
    ∀ ec ∈ expand test_x_plus_y_cartesian_product,
      runExpanded test_x_plus_y_cartesian_product ec = (.passed, none) := by
  refine ⟨fun t _ => length_expand t, by decide, by decide⟩

/-- Witness for C1 at the concrete cartesian-product test. -/
theorem c1_cartesian_product_count_witness :
    (∀ a ∈ test_x_plus_y_cartesian_product.axes, a.isIndependent = true) ∧
    (expand test_x_plus_y_cartesian_product).length =
      (test_x_plus_y_cartesian_product.axes.map Axis.size).prod :=
  ⟨by decide, c1_cartesian_product_count.1 test_x_plus_y_cartesian_product (by decide)⟩

/-- Claim C2: a TestCase with a single joint axis of r declared rows expands to
exactly r entries, each row bound atomically; concretely,
test_x_plus_y_less_basic with rows (2, 2, 4) and (2, 3, 5) expands to exactly
those two bindings, and both run to Passed. -/
theorem c2_joint_axis_count :
    (∀ (t : TestCase) (ns : List String) (rows : List (List Val)),
      t.axes = [Axis.joint ns rows] → (expand t).length = rows.length) ∧
    expand test_x_plus_y_less_basic =
      [⟨"test_x_plus_y_less_basic",
        [("x", .vint 2), ("y", .vint 2), ("expected_result", .vint 4)]⟩,
       ⟨"test_x_plus_y_less_basic",
        [("x", .vint 2), ("y", .vint 3), ("expected_result", .vint 5)]⟩] ∧
    ∀ ec ∈ expand test_x_plus_y_less_basic,
      runExpanded test_x_plus_y_less_basic ec = (.passed, none) := by
  refine ⟨fun t ns rows h => ?_, by decide, by decide⟩
  rw [length_expand, h]
  simp [Axis.size]

/-- Witness for C2 at the concrete joint-axis test. -/
theorem c2_joint_axis_count_witness :
    test_x_plus_y_less_basic.axes =
      [Axis.joint ["x", "y", "expected_result"]
        [[.vint 2, .vint 2, .vint 4], [.vint 2, .vint 3, .vint 5]]] ∧
    (expand test_x_plus_y_less_basic).length = 2 :=
  ⟨rfl, c2_joint_axis_count.1 test_x_plus_y_less_basic
    ["x", "y", "expected_result"]
    [[.vint 2, .vint 2, .vint 4], [.vint 2, .vint 3, .vint 5]] rfl⟩

/-- Claim C3: for every TestCase whose joint rows match their axis arity and
whose axes declare no duplicate parameter name, every ExpandedCase produced by
expand binds exactly the union of the names declared across the axes, with no
duplicates and no omissions. -/
theorem c3_bound_names_invariant (t : TestCase)
    (hrows : ∀ a ∈ t.axes, axisRowsOk a = true)
    (hnodup : (declaredNames t).Nodup) :
    ∀ ec ∈ expand t,
      ec.binding.map Prod.fst = declaredNames t ∧
      (ec.binding.map Prod.fst).Nodup := by
  intro ec hec
  simp only [expand, List.mem_map] at hec
  obtain ⟨b, hb, rfl⟩ := hec
  have h := map_fst_foldl_expandStep t.axes [[]] [] hrows (by simp) b hb
  simp only [List.nil_append] at h
  exact ⟨h, h ▸ hnodup⟩

/-- Witness for C3 at a concrete expanded case of the cartesian-product test. -/
theorem c3_bound_names_invariant_witness :
    (∀ a ∈ test_x_plus_y_cartesian_product.axes, axisRowsOk a = true) ∧
    (declaredNames test_x_plus_y_cartesian_product).Nodup ∧
    (ExpandedCase.mk "test_x_plus_y_cartesian_product" [("x", .vint 2), ("y", .vint 3)])
      ∈ expand test_x_plus_y_cartesian_product ∧
    ((ExpandedCase.mk "test_x_plus_y_cartesian_product"
        [("x", .vint 2), ("y", .vint 3)]).binding.map Prod.fst =
      declaredNames test_x_plus_y_cartesian_product ∧
      ((ExpandedCase.mk "test_x_plus_y_cartesian_product"
        [("x", .vint 2), ("y", .vint 3)]).binding.map Prod.fst).Nodup) :=
  ⟨by decide, by decide, by decide,
    c3_bound_names_invariant test_x_plus_y_cartesian_product (by decide) (by decide)
      (ExpandedCase.mk "test_x_plus_y_cartesian_product" [("x", .vint 2), ("y", .vint 3)])
      (by decide)⟩

/-- Claim C4: test_x_plus_y_even_less_basic expands to the single binding x=2,
y="2", and running it yields ExpectedExceptionRaised with nothing propagated,
because x_plus_y_errorhandling raises TypeError inside the expect-TypeError scope. -/
theorem c4_expected_exception_raised :
    expand test_x_plus_y_even_less_basic =
      [⟨"test_x_plus_y_even_less_basic", [("x", .vint 2), ("y", .vstr "2")]⟩] ∧
    runExpanded test_x_plus_y_even_less_basic
      ⟨"test_x_plus_y_even_less_basic", [("x", .vint 2), ("y", .vstr "2")]⟩ =
      (.expectedExceptionRaised, none) := by
  decide

/-- Claim C5: under an expect-exception scope of kind k, a body that completes
without raising is recorded as ExpectedExceptionNotRaised with nothing
propagated, and a body that raises a non-matching exception is recorded as
ExpectedExceptionNotRaised with the original exception propagated to the caller. -/
theorem c5_expect_scope_failure_modes (k : ExnKind)
    (f : Binding → Except PyExn Unit) (args : Binding) :
    (f args = .ok () →
      runCase (.expecting k f) args = (.expectedExceptionNotRaised, none)) ∧
    (∀ e : PyExn, f args = .error e → e.kind ≠ k →
      runCase (.expecting k f) args = (.expectedExceptionNotRaised, some e)) := by
  constructor
  · intro h; simp [runCase, h]
  · intro e h hk; simp [runCase, h, beq_iff_eq, hk]

/-- Witness for C5: a body that completes, and a body raising an
AssertionError under an expect-TypeError scope. -/
theorem c5_expect_scope_failure_modes_witness :
    runCase (.expecting .typeError (fun _ => .ok ())) [] =
      (.expectedExceptionNotRaised, none) ∧
    runCase (.expecting .typeError (fun _ => .error (.assertionError "boom"))) [] =
      (.expectedExceptionNotRaised, some (.assertionError "boom")) :=
  ⟨(c5_expect_scope_failure_modes .typeError (fun _ => .ok ()) []).1 rfl,
   (c5_expect_scope_failure_modes .typeError
      (fun _ => .error (.assertionError "boom")) []).2
      (.assertionError "boom") rfl (by decide)⟩

/-- Claim C6: test_x_plus_y_expect_to_fail expands to a single case bound to its
defaults x=2, y=2, and running it yields Failed with reason 4 != 5, since the
body asserts x_plus_y(x, y) == 5 while the sum is 4. -/
theorem c6_expect_to_fail_reason :
    expand test_x_plus_y_expect_to_fail = [⟨"test_x_plus_y_expect_to_fail", []⟩] ∧
    runExpanded test_x_plus_y_expect_to_fail ⟨"test_x_plus_y_expect_to_fail", []⟩ =
      (.failed "4 != 5", none) := by
  decide

/-- Claim C7: expansion is deterministic and the output order follows the
declaration order of axes and of values within an axis; concretely the
cartesian-product test expands to the nine bindings with the first axis varying
slowest, in declared value order. -/
theorem c7_expansion_deterministic :
    (∀ t : TestCase, expand t = expand t) ∧
    expand test_x_plus_y_cartesian_product =
      [⟨"test_x_plus_y_cartesian_product", [("x", .vint 2), ("y", .vint 3)]⟩,
       ⟨"test_x_plus_y_cartesian_product", [("x", .vint 2), ("y", .vint 4)]⟩,
       ⟨"test_x_plus_y_cartesian_product", [("x", .vint 2), ("y", .vint 5)]⟩,
       ⟨"test_x_plus_y_cartesian_product", [("x", .vint 3), ("y", .vint 3)]⟩,
       ⟨"test_x_plus_y_cartesian_product", [("x", .vint 3), ("y", .vint 4)]⟩,
       ⟨"test_x_plus_y_cartesian_product", [("x", .vint 3), ("y", .vint 5)]⟩,
       ⟨"test_x_plus_y_cartesian_product", [("x", .vint 4), ("y", .vint 3)]⟩,
       ⟨"test_x_plus_y_cartesian_product", [("x", .vint 4), ("y", .vint 4)]⟩,
       ⟨"test_x_plus_y_cartesian_product", [("x", .vint 4), ("y", .vint 5)]⟩] :=
  ⟨fun _ => rfl, by decide⟩

/-- Claim C8: a test declared with zero axes expands to exactly one ExpandedCase
with an empty binding, so its effective arguments are exactly the defaults;
concretely test_x_plus_y_basic expands to one case whose effective arguments are
x=2, y=2 and which runs to Passed. -/
theorem c8_zero_axes_single_case :
    (∀ t : TestCase, t.axes = [] →
      expand t = [{ testName := t.name, binding := [] }]) ∧
    expand test_x_plus_y_basic = [⟨"test_x_plus_y_basic", []⟩] ∧
    (⟨"test_x_plus_y_basic", []⟩ : ExpandedCase).binding ++ test_x_plus_y_basic.defaults =
      [("x", .vint 2), ("y", .vint 2)] ∧
    runExpanded test_x_plus_y_basic ⟨"test_x_plus_y_basic", []⟩ = (.passed, none) := by
  refine ⟨fun t h => ?_, by decide, by decide, by decide⟩
  simp [expand, h]

/-- Witness for C8 at the concrete zero-axis test. -/
theorem c8_zero_axes_single_case_witness :
    test_x_plus_y_basic.axes = [] ∧
    expand test_x_plus_y_basic =
      [{ testName := test_x_plus_y_basic.name, binding := [] }] :=
  ⟨rfl, c8_zero_axes_single_case.1 test_x_plus_y_basic rfl⟩

/-- Claim C9: x_plus_y_errorhandling raises TypeError exactly when the exact
runtime type of an input is neither int nor float; in particular a bool input is
rejected even though Python addition would succeed on it, since validate_type
checks exact type membership and type(True) is bool. -/
theorem c9_exact_type_validation :
    (∀ x y : Val, isTypeError (x_plus_y_errorhandling x y) =
      !(validate_type x && validate_type y)) ∧
    validate_type (.vbool true) = false ∧
    x_plus_y_errorhandling (.vbool true) (.vint 1) =
      .error (.typeError "Input types are not appropriate for addition.") ∧
    x_plus_y (.vbool true) (.vint 1) = .ok (.vint 2) := by
  refine ⟨fun x y => ?_, by decide, rfl, rfl⟩
  cases x <;> cases y <;> rfl

/-- Claim C10: on inputs both of which validate_type accepts,
x_plus_y_errorhandling returns exactly what x_plus_y returns. -/
theorem c10_errorhandling_refines_plain (x y : Val)
    (hx : validate_type x = true) (hy : validate_type y = true) :
    x_plus_y_errorhandling x y = x_plus_y x y := by
  simp [x_plus_y_errorhandling, x_plus_y, hx, hy]

/-- Witness for C10 at the validated inputs 2 and 3. -/
theorem c10_errorhandling_refines_plain_witness :
    validate_type (.vint 2) = true ∧ validate_type (.vint 3) = true ∧
    x_plus_y_errorhandling (.vint 2) (.vint 3) = x_plus_y (.vint 2) (.vint 3) :=
  ⟨by decide, by decide,
    c10_errorhandling_refines_plain (.vint 2) (.vint 3) (by decide) (by decide)⟩


end DevTools
